import Mathlib

/-!
Verification of the `brush-kernel` compute-dispatch and buffer-management
subsystem (crates/brush-kernel/src/lib.rs), shallowly embedded in Lean 4.

Machine integers (`u32`, `usize`) are modelled as `Nat`; all quantities in
the claims stay far below `2^32`, and none of the embedded operations can
overflow at the inputs considered (Rust's `u32::div_ceil` is itself
overflow-free), so no explicit modular reduction is needed.
-/

/-- Rust `u32::div_ceil`: `self / rhs` plus one when a remainder exists.
(Rust panics when `rhs = 0`; all theorems assume a positive divisor.) -/
def div_ceil (a b : Nat) : Nat :=
  a / b + (if a % b > 0 then 1 else 0)

/-- An ordered triple of `u32` values, as used for workgroup sizes and
dispatch shapes (`[u32; 3]`, `CubeCount::Static`). -/
abbrev Triple := Nat × Nat × Nat

/-- Component access into a triple, dimension `i < 3`. -/
def tget (t : Triple) : Fin 3 → Nat
  | ⟨0, _⟩ => t.1
  | ⟨1, _⟩ => t.2.1
  | ⟨2, _⟩ => t.2.2

/-- `calc_cube_count` (lib.rs lines 14–24): for each of the 3 dimensions,
ceil-divide the corresponding entry of `sizes` (defaulting to 1 past the
end of `sizes`) by the workgroup size, and return a static dispatch shape. -/
def calc_cube_count (sizes : List Nat) (workgroup_size : Triple) : Triple :=
  ( div_ceil (sizes.getD 0 1) workgroup_size.1,
    div_ceil (sizes.getD 1 1) workgroup_size.2.1,
    div_ceil (sizes.getD 2 1) workgroup_size.2.2 )

/-- The spec's formula for `static_dispatch`, written from the spec's words:
`max(1, ceil(sizes.get(i, default=1) / workgroup_size[i]))` in each
dimension.  Kept separate from `calc_cube_count` for comparison. -/
def static_dispatch_spec (sizes : List Nat) (workgroup_size : Triple) : Triple :=
  ( max 1 (div_ceil (sizes.getD 0 1) workgroup_size.1),
    max 1 (div_ceil (sizes.getD 1 1) workgroup_size.2.1),
    max 1 (div_ceil (sizes.getD 2 1) workgroup_size.2.2) )

/-- Modelled from the spec: the device-side sizing kernel `shaders::wg`
(its WGSL source, `shaders/wg`, is generated code not present under the
sources).  Per the spec it reads the device-resident thread count `T` and
the workgroup-size uniform and "computes the same ceil-division as
`static_dispatch` but entirely on the device", writing the 3 resulting
counts: dimension 0 is `ceil(T / wg.x)`, dimensions 1 and 2 have logical
size 1. -/
def wg_kernel_output (T : Nat) (wg : Triple) : Triple :=
  ( div_ceil T wg.1, div_ceil 1 wg.2.1, div_ceil 1 wg.2.2 )

/-- The variant-identity function generated by `kernel_source_gen`
(lib.rs lines 87–101): start from the struct name and, for each boolean
flag field in declaration order, push `'0'` when the flag is set and `'1'`
when it is not. -/
def variant_id (name : String) (flags : List Bool) : String :=
  flags.foldl (fun ids f => ids.push (if f then '0' else '1')) name

/-- The spec's identity scheme, written from the spec's words: kernel name
plus one `'1'` character per set flag and `'0'` per unset flag, in declared
order.  Kept separate from `variant_id` for comparison. -/
def variant_id_spec (name : String) (flags : List Bool) : String :=
  flags.foldl (fun ids f => ids.push (if f then '1' else '0')) name

/-- Rust `str::to_uppercase`, restricted to its character-wise action
(flag identifiers are ASCII): upper-case every character. -/
def to_uppercase (s : String) : String :=
  String.mk (s.data.map Char.toUpper)

/-- The define set built by `create_shader_hashmap` (lib.rs lines 67–77):
for each flag field in declaration order, when the flag is set, insert its
upper-cased identifier mapped to the boolean-true define value.  The
`HashMap` is embedded as the association list in insertion order; every
inserted value is `ShaderDefValue::Bool(true)`, modelled as `true`. -/
def create_shader_hashmap (flags : List (String × Bool)) : List (String × Bool) :=
  flags.foldl (fun map p => if p.2 then map ++ [(to_uppercase p.1, true)] else map) []

/-- Element-type tags for typed buffers (`JitElement` instantiations). -/
inductive ElemType
  | u32
  | i32
  | f32
  | u8
  deriving DecidableEq, Repr

/-- `core::mem::size_of` for the modelled element types. -/
def elemSize : ElemType → Nat
  | .u32 => 4
  | .i32 => 4
  | .f32 => 4
  | .u8 => 1

/-- One operation submitted to the compute client, recorded in order. -/
inductive ClientOp
  | create (bytes : List Nat)
  | empty (size : Nat)
  | execute (kernelId : String) (count : Triple) (bindings : List Nat)
  deriving DecidableEq, Repr

/-- The compute client, embedded as explicit state: the byte sizes of the
allocations made so far (a handle is an index into this list) and the
ordered log of submitted operations. -/
structure ClientState where
  allocs : List Nat
  log : List ClientOp
  deriving DecidableEq, Repr

def initState : ClientState := { allocs := [], log := [] }

/-- `client.create(bytes)`: upload raw bytes to a new allocation. -/
def clientCreate (st : ClientState) (bytes : List Nat) : Nat × ClientState :=
  (st.allocs.length,
   { allocs := st.allocs ++ [bytes.length], log := st.log ++ [.create bytes] })

/-- `client.empty(size)`: allocate `size` uninitialized bytes. -/
def clientEmpty (st : ClientState) (size : Nat) : Nat × ClientState :=
  (st.allocs.length,
   { allocs := st.allocs ++ [size], log := st.log ++ [.empty size] })

/-- `client.execute(task, count, bindings)`: enqueue a kernel launch. -/
def clientExecute (st : ClientState) (kernelId : String) (count : Triple)
    (bindings : List Nat) : ClientState :=
  { st with log := st.log ++ [.execute kernelId count bindings] }

/-- Row-major contiguous strides for a shape, as `JitTensor::new_contiguous`
computes them: stride of dimension `i` is the product of the dimensions
after it. -/
def contiguous_strides : List Nat → List Nat
  | [] => []
  | _ :: rest => rest.prod :: contiguous_strides rest

/-- `JitTensor<R, E, D>`: a typed device buffer.  `handle` is the index of
the underlying allocation in the client state, `handleBytes` its byte
size; the element type is carried as a tag. -/
structure JitTensor where
  handle : Nat
  handleBytes : Nat
  shape : List Nat
  device : Nat
  strides : List Nat
  elem : ElemType
  deriving DecidableEq, Repr

/-- `bitcast_tensor` (lib.rs lines 113–123): rebuild the tensor from the
same client, handle, shape, device and strides, under the output element
type.  No client operation is performed. -/
def bitcast_tensor (tensor : JitTensor) (eOut : ElemType) : JitTensor :=
  { handle := tensor.handle
    handleBytes := tensor.handleBytes
    shape := tensor.shape
    device := tensor.device
    strides := tensor.strides
    elem := eOut }

/-- `create_tensor` (lib.rs lines 126–148, non-test path): request
`shape.num_elements() * size_of::<E>()` bytes from the client and wrap the
allocation as a contiguous tensor. -/
def create_tensor (shape : List Nat) (e : ElemType) (device : Nat)
    (st : ClientState) : JitTensor × ClientState :=
  let bufsize := shape.prod * elemSize e
  let (h, st') := clientEmpty st bufsize
  ({ handle := h
     handleBytes := bufsize
     shape := shape
     device := device
     strides := contiguous_strides shape
     elem := e }, st')

/-- `create_uniform_buffer` (lib.rs lines 150–164): serialize the value to
its raw bytes (`bytemuck::bytes_of`), set the element count to
`bytes.len() / 4`, upload the bytes, and wrap them as a rank-1 `u32`
tensor.  There is no divisibility check. -/
def create_uniform_buffer (bytes : List Nat) (device : Nat)
    (st : ClientState) : JitTensor × ClientState :=
  let shape := bytes.length / 4
  let (h, st') := clientCreate st bytes
  ({ handle := h
     handleBytes := bytes.length
     shape := [shape]
     device := device
     strides := contiguous_strides [shape]
     elem := .u32 }, st')

/-- Little-endian byte serialization of one `u32`, as `bytemuck` lays a
`#[repr(C)]` struct of `u32` fields out in memory. -/
def u32_le_bytes (n : Nat) : List Nat :=
  [n % 256, n / 256 % 256, n / 65536 % 256, n / 16777216 % 256]

/-- `bytemuck::bytes_of` applied to `wg::Uniforms { wg_size_x, wg_size_y,
wg_size_z }`: the three `u32` fields in order. -/
def uniforms_bytes (wg : Triple) : List Nat :=
  u32_le_bytes wg.1 ++ u32_le_bytes wg.2.1 ++ u32_le_bytes wg.2.2

/-- `create_dispatch_buffer` (lib.rs lines 181–207): pack the workgroup
size into a uniform buffer, allocate a 3-element `u32` output tensor,
launch the `CreateDispatchBuffer` sizing kernel with a static `(1,1,1)`
dispatch and bindings `[uniforms, thread_nums, ret]`, and return `ret`. -/
def create_dispatch_buffer (thread_nums : JitTensor) (wg_size : Triple)
    (st : ClientState) : JitTensor × ClientState :=
  let (uniforms_buffer, st1) :=
    create_uniform_buffer (uniforms_bytes wg_size) thread_nums.device st
  let (ret, st2) := create_tensor [3] .u32 thread_nums.device st1
  let st3 := clientExecute st2 "CreateDispatchBuffer" (1, 1, 1)
    [uniforms_buffer.handle, thread_nums.handle, ret.handle]
  (ret, st3)

/-- A `naga::Module`, abstracted to what `module_to_compiled` observes of
it: whether `naga::valid::Validator::validate` accepts it, whether
`naga::back::wgsl::write_string` succeeds on it, and the WGSL source text
the writer would produce. -/
structure NagaModule where
  validates : Bool
  wgslWrites : Bool
  sourceText : String
  deriving DecidableEq, Repr

/-- `cubecl::compute::CompiledKernel`. -/
structure CompiledKernel where
  source : String
  cube_dim : Triple
  shared_mem_bytes : Nat
  deriving DecidableEq, Repr

/-- Outcome of a fallible Rust computation: a normal value, a typed error
returned to the caller, or an abort of the whole operation (`panic`,
as produced by `.unwrap()` / `.expect(..)`). -/
inductive Outcome (α : Type)
  | ok (a : α)
  | err (msg : String)
  | fatal
  deriving DecidableEq, Repr

/-- `Validator::validate(&module)` as `module_to_compiled` consumes it:
`Ok(info)` when the module validates, `Err(..)` otherwise. -/
def naga_validate (m : NagaModule) : Outcome Unit :=
  if m.validates then .ok () else .err "validation error"

/-- `naga::back::wgsl::write_string(&module, &info, ..)`. -/
def wgsl_write_string (m : NagaModule) : Outcome String :=
  if m.wgslWrites then .ok m.sourceText else .err "writer error"

/-- `module_to_compiled` (lib.rs lines 26–44): validate the module,
`.unwrap()` the result (abort on error), convert to WGSL source with
`.expect(..)` (abort on error), and assemble the `CompiledKernel` with the
given workgroup size and zero shared-memory bytes. -/
def module_to_compiled (module : NagaModule) (workgroup_size : Triple) :
    Outcome CompiledKernel :=
  match naga_validate module with
  | .err _ => .fatal
  | .fatal => .fatal
  | .ok _ =>
    match wgsl_write_string module with
    | .err _ => .fatal
    | .fatal => .fatal
    | .ok s =>
      .ok { source := s
            cube_dim := workgroup_size
            shared_mem_bytes := 0 }

/-! ## Helper lemmas -/

theorem div_ceil_eq (a b : Nat) (hb : 0 < b) : div_ceil a b = (a + b - 1) / b := by
  have hrlt : a % b < b := Nat.mod_lt _ hb
  rcases Nat.eq_zero_or_pos (a % b) with h | h
  · have h1 : a + b - 1 = b * (a / b) + (b - 1) := by
      have hqr := Nat.div_add_mod a b
      omega
    rw [h1, Nat.mul_add_div hb, Nat.div_eq_of_lt (show b - 1 < b by omega)]
    simp [div_ceil, h]
  · have h1 : a + b - 1 = b * (a / b + 1) + (a % b - 1) := by
      have hqr := Nat.div_add_mod a b
      have h2 : b * (a / b + 1) = b * (a / b) + b := by ring
      omega
    rw [h1, Nat.mul_add_div hb, Nat.div_eq_of_lt (show a % b - 1 < b by omega)]
    simp [div_ceil, h]

theorem div_ceil_pos (a b : Nat) (hb : 0 < b) (ha : 0 < a) : 0 < div_ceil a b := by
  rw [div_ceil]
  rcases Nat.eq_zero_or_pos (a % b) with h | h
  · have hba : b ≤ a := Nat.le_of_dvd ha (Nat.dvd_of_mod_eq_zero h)
    simpa [h] using Nat.div_pos hba hb
  · simp [h]

theorem variant_id_data (name : String) (flags : List Bool) :
    (variant_id name flags).data
      = name.data ++ flags.map (fun f => if f then '0' else '1') := by
  induction flags generalizing name with
  | nil => simp [variant_id]
  | cons f fs ih =>
    have h := ih (name.push (if f then '0' else '1'))
    simp only [variant_id, List.foldl_cons] at h ⊢
    rw [h, String.data_push]
    simp

theorem shader_hashmap_foldl_acc (flags acc : List (String × Bool)) :
    flags.foldl (fun map p => if p.2 then map ++ [(to_uppercase p.1, true)] else map) acc
      = acc ++ (flags.filter fun p => p.2).map (fun p => (to_uppercase p.1, true)) := by
  induction flags generalizing acc with
  | nil => simp
  | cons p ps ih => cases hp : p.2 <;> simp [hp, ih]

/-! ## C1: static dispatch shape (calc_cube_count) -/

/-- C1, counterexample: at `sizes = [0]` and workgroup size `(1,1,1)` (all
positive, length within bounds), `calc_cube_count` returns `(0,1,1)`,
while the spec formula `max(1, ceil(sizes.get(i, default=1) / wg[i]))`
gives `(1,1,1)`: the code has no minimum-1 clamp. -/
theorem C1_calc_cube_count_cex :
    calc_cube_count [0] (1, 1, 1) = (0, 1, 1) ∧
    static_dispatch_spec [0] (1, 1, 1) = (1, 1, 1) ∧
    calc_cube_count [0] (1, 1, 1) ≠ static_dispatch_spec [0] (1, 1, 1) := by
  decide

/-- C1, amended: for `sizes` of length at most 3 and positive workgroup
sizes, `calc_cube_count` returns in each dimension `i` exactly
`ceil(sizes.get(i, default=1) / workgroup_size[i])` with no minimum-1
clamp; the count is at least 1 whenever the (defaulted) size in that
dimension is positive — in particular in every dimension beyond the rank
of `sizes`, where the size defaults to 1 — and the spec's worked examples
hold. -/
theorem C1_calc_cube_count (sizes : List Nat) (wg : Triple)
    (hlen : sizes.length ≤ 3)
    (hx : 0 < wg.1) (hy : 0 < wg.2.1) (hz : 0 < wg.2.2) :
    (∀ i : Fin 3, tget (calc_cube_count sizes wg) i
        = (sizes.getD i.val 1 + tget wg i - 1) / tget wg i) ∧
    (∀ i : Fin 3, 0 < sizes.getD i.val 1 →
        1 ≤ tget (calc_cube_count sizes wg) i) ∧
    (∀ i : Fin 3, sizes.length ≤ i.val → sizes.getD i.val 1 = 1) ∧
    calc_cube_count [10] (8, 1, 1) = (2, 1, 1) ∧
    calc_cube_count [16, 16] (8, 8, 1) = (2, 2, 1) ∧
    calc_cube_count [] (8, 8, 8) = (1, 1, 1) := by
  refine ⟨?_, ?_, ?_, by decide, by decide, by decide⟩
  · intro i
    fin_cases i <;>
      simp [calc_cube_count, tget, div_ceil_eq _ _ hx, div_ceil_eq _ _ hy,
        div_ceil_eq _ _ hz]
  · intro i hpos
    fin_cases i <;>
      · simp only [calc_cube_count, tget]
        first
          | exact div_ceil_pos _ _ hx (by simpa using hpos)
          | exact div_ceil_pos _ _ hy (by simpa using hpos)
          | exact div_ceil_pos _ _ hz (by simpa using hpos)
  · intro i hi
    exact List.getD_eq_default _ _ hi

/-- C1 witness: the amended theorem applied at `sizes = [10]`,
workgroup size `(8,1,1)`. -/
theorem C1_calc_cube_count_witness :
    (([10] : List Nat).length ≤ 3 ∧ (0:Nat) < 8 ∧ (0:Nat) < 1) ∧
    ((∀ i : Fin 3, tget (calc_cube_count [10] (8, 1, 1)) i
        = (([10] : List Nat).getD i.val 1 + tget (8, 1, 1) i - 1) / tget (8, 1, 1) i) ∧
     (∀ i : Fin 3, 0 < ([10] : List Nat).getD i.val 1 →
        1 ≤ tget (calc_cube_count [10] (8, 1, 1)) i) ∧
     (∀ i : Fin 3, ([10] : List Nat).length ≤ i.val → ([10] : List Nat).getD i.val 1 = 1) ∧
     calc_cube_count [10] (8, 1, 1) = (2, 1, 1) ∧
     calc_cube_count [16, 16] (8, 8, 1) = (2, 2, 1) ∧
     calc_cube_count [] (8, 8, 8) = (1, 1, 1)) :=
  ⟨⟨by decide, by decide, by decide⟩,
   C1_calc_cube_count [10] (8, 1, 1) (by decide) (by decide) (by decide) (by decide)⟩

/-! ## C2: device-side sizing kernel vs static dispatch -/

/-- C2: the (spec-modelled) device-side sizing kernel computes, for a
device-resident thread count `T` and workgroup size `wg`, exactly
`calc_cube_count [T] wg`; at `T = 1000` and workgroup size 256 the
dispatch buffer equals `(4,1,1)`, matching `static_dispatch`. -/
theorem C2_wg_kernel_matches_static_dispatch (T : Nat) (wg : Triple) :
    wg_kernel_output T wg = calc_cube_count [T] wg ∧
    wg_kernel_output 1000 (256, 1, 1) = (4, 1, 1) ∧
    calc_cube_count [1000] (256, 1, 1) = (4, 1, 1) := by
  refine ⟨?_, by decide, by decide⟩
  simp [wg_kernel_output, calc_cube_count, List.getD]

/-! ## C3: variant identity string -/

/-- C3, counterexample: for a kernel named `Kernel` with one flag set to
true, the generated `id` is `"Kernel0"`, not `"Kernel1"` as the spec's
scheme (`'1'` if set, `'0'` if not) would give: the code pushes `'0'` for
a set flag and `'1'` for an unset one. -/
theorem C3_variant_id_cex :
    variant_id "Kernel" [true] = "Kernel0" ∧
    variant_id_spec "Kernel" [true] = "Kernel1" ∧
    variant_id "Kernel" [true] ≠ variant_id_spec "Kernel" [true] := by
  refine ⟨rfl, rfl, ?_⟩
  decide

/-- C3, amended: the identity string is the kernel name concatenated with
exactly one character per boolean flag in declaration order, where the
character is `'0'` if the flag is set and `'1'` if it is not. -/
theorem C3_variant_id (name : String) (flags : List Bool) :
    (variant_id name flags).data
      = name.data ++ flags.map (fun f => if f then '0' else '1') ∧
    variant_id "Kernel" [true, false] = "Kernel01" :=
  ⟨variant_id_data name flags, rfl⟩

/-! ## C4: variant identity is deterministic and collision-free -/

/-- C4: for two variants of the same kernel with the same number of flags,
identical flag assignments give identical identity strings, different flag
assignments give different identity strings, and the identity length is
the kernel-name length plus the flag count. -/
theorem C4_variant_id_props (name : String) (f1 f2 : List Bool)
    (hlen : f1.length = f2.length) :
    (f1 = f2 → variant_id name f1 = variant_id name f2) ∧
    (f1 ≠ f2 → variant_id name f1 ≠ variant_id name f2) ∧
    (variant_id name f1).length = name.length + f1.length := by
  refine ⟨fun he => he ▸ rfl, ?_, ?_⟩
  · intro hne heq
    apply hne
    have hdata := congrArg String.data heq
    rw [variant_id_data, variant_id_data] at hdata
    have htail := List.append_cancel_left hdata
    have hinj : Function.Injective (fun f : Bool => if f then '0' else '1') := by
      intro a b hab
      cases a <;> cases b <;> simp_all
    exact List.map_injective_iff.mpr hinj htail
  · have hd := variant_id_data name f1
    have : (variant_id name f1).length = (variant_id name f1).data.length := rfl
    rw [this, hd]
    simp

/-- C4 witness: the theorem applied to the one-flag variants
`[true]` and `[false]` of kernel `K`. -/
theorem C4_variant_id_props_witness :
    ([true] : List Bool).length = ([false] : List Bool).length ∧
    ((([true] : List Bool) = [false] →
        variant_id "K" [true] = variant_id "K" [false]) ∧
     (([true] : List Bool) ≠ [false] →
        variant_id "K" [true] ≠ variant_id "K" [false]) ∧
     (variant_id "K" [true]).length = "K".length + ([true] : List Bool).length) :=
  ⟨by decide, C4_variant_id_props "K" [true] [false] (by decide)⟩

/-! ## C5: uniform buffer packing -/

/-- C5, counterexample: packing a 2-byte value does not fail — the bytes
are uploaded and a tensor is produced — but the reported element count is
`2 / 4 = 0` and the produced buffer's byte length is 2, which is not a
multiple of 4.  This refutes both the claimed precondition failure and the
claimed consequence that the buffer byte length is always a multiple
of 4. -/
theorem C5_create_uniform_buffer_cex :
    (create_uniform_buffer [7, 7] 0 initState).1.handleBytes % 4 ≠ 0 ∧
    (create_uniform_buffer [7, 7] 0 initState).1.shape = [0] ∧
    (create_uniform_buffer [7, 7] 0 initState).2.log
      = [ClientOp.create [7, 7]] := by
  decide

/-- C5, amended: for every value — of any byte length — `create_uniform_buffer`
uploads the value's raw bytes and reports element count `byte_length / 4`
(floor division), with no divisibility check and no failure path; the
produced buffer's byte length equals the value's byte length, so it is a
multiple of 4 exactly when the value's byte length is, and the reported
element count accounts for `byte_length - byte_length % 4` of the bytes
(all of them exactly when the length is a multiple of 4). -/
theorem C5_create_uniform_buffer (bytes : List Nat) (device : Nat)
    (st : ClientState) :
    (create_uniform_buffer bytes device st).1.shape = [bytes.length / 4] ∧
    (create_uniform_buffer bytes device st).1.handleBytes = bytes.length ∧
    ((create_uniform_buffer bytes device st).1.handleBytes % 4 = 0
      ↔ bytes.length % 4 = 0) ∧
    4 * ((create_uniform_buffer bytes device st).1.shape.prod)
      = bytes.length - bytes.length % 4 ∧
    (create_uniform_buffer bytes device st).2.log
      = st.log ++ [ClientOp.create bytes] := by
  refine ⟨rfl, rfl, Iff.rfl, ?_, rfl⟩
  show 4 * ([bytes.length / 4].prod) = bytes.length - bytes.length % 4
  simp
  omega

/-! ## C7: shader define set -/

/-- C7: the define set built by `create_shader_hashmap` is exactly the set
of flags that are true, each keyed by the flag's upper-cased identifier
and mapped to the boolean-true define value; flags set to false produce no
entry. -/
theorem C7_create_shader_hashmap (flags : List (String × Bool)) :
    create_shader_hashmap flags
      = (flags.filter fun p => p.2).map (fun p => (to_uppercase p.1, true)) ∧
    create_shader_hashmap [("hard_float", true), ("bwd_info", false)]
      = [("HARD_FLOAT", true)] := by
  constructor
  · simpa [create_shader_hashmap] using shader_hashmap_foldl_acc flags []
  · decide

/-! ## C6: indirect dispatch procedure -/

/-- C6: `create_dispatch_buffer` performs exactly, in order: (1) an upload
of a uniform buffer holding the workgroup size, (2) an allocation of a
3-element (12-byte) `u32` output buffer, (3) a launch of the
`CreateDispatchBuffer` sizing kernel with static dispatch shape `(1,1,1)`
and bindings in positional order — workgroup-size uniform, then the
thread-count buffer, then the output buffer — with no other client
operation (in particular no host-side readback), and it returns the
output buffer. -/
theorem C6_create_dispatch_buffer (thread_nums : JitTensor) (wg : Triple)
    (st : ClientState) :
    (create_dispatch_buffer thread_nums wg st).2.log
      = st.log
        ++ [ClientOp.create (uniforms_bytes wg),
            ClientOp.empty 12,
            ClientOp.execute "CreateDispatchBuffer" (1, 1, 1)
              [st.allocs.length, thread_nums.handle, st.allocs.length + 1]] ∧
    (create_dispatch_buffer thread_nums wg st).1.shape = [3] ∧
    (create_dispatch_buffer thread_nums wg st).1.elem = ElemType.u32 ∧
    (create_dispatch_buffer thread_nums wg st).1.handleBytes = 12 ∧
    (create_dispatch_buffer thread_nums wg st).1.handle = st.allocs.length + 1 := by
  refine ⟨?_, rfl, rfl, rfl, ?_⟩ <;>
    simp [create_dispatch_buffer, create_uniform_buffer, create_tensor,
      clientCreate, clientEmpty, clientExecute, elemSize]

/-! ## C8: tensor reinterpretation -/

/-- C8: `bitcast_tensor` returns a view with the same handle, byte size,
shape, strides and device; only the element-type tag becomes the requested
output type.  The function takes no client state and performs no client
operation, so no data moves. -/
theorem C8_bitcast_tensor (tensor : JitTensor) (eOut : ElemType) :
    (bitcast_tensor tensor eOut).handle = tensor.handle ∧
    (bitcast_tensor tensor eOut).handleBytes = tensor.handleBytes ∧
    (bitcast_tensor tensor eOut).shape = tensor.shape ∧
    (bitcast_tensor tensor eOut).strides = tensor.strides ∧
    (bitcast_tensor tensor eOut).device = tensor.device ∧
    (bitcast_tensor tensor eOut).elem = eOut :=
  ⟨rfl, rfl, rfl, rfl, rfl, rfl⟩

/-! ## C9: tensor allocation size -/

/-- C9: `create_tensor` requests exactly
`shape.num_elements() * size_of(element_type)` bytes from the compute
client; for shape `[1000, 3]` with a 4-byte element type the allocation is
exactly 12000 bytes. -/
theorem C9_create_tensor (shape : List Nat) (e : ElemType) (device : Nat)
    (st : ClientState) :
    (create_tensor shape e device st).2.log
      = st.log ++ [ClientOp.empty (shape.prod * elemSize e)] ∧
    (create_tensor shape e device st).1.handleBytes = shape.prod * elemSize e ∧
    (create_tensor [1000, 3] ElemType.u32 device st).2.log
      = st.log ++ [ClientOp.empty 12000] := by
  refine ⟨?_, rfl, ?_⟩ <;>
    simp [create_tensor, clientEmpty, elemSize]

/-! ## C10: shader validation failure aborts -/

/-- C10: when validation of the generated module fails,
`module_to_compiled` aborts (the `.unwrap()` panic) rather than returning
a typed error: the outcome is `fatal`, and no validation failure is ever
observable as an `err` result. -/
theorem C10_module_to_compiled (module : NagaModule) (wgsize : Triple)
    (hval : module.validates = false) :
    module_to_compiled module wgsize = Outcome.fatal ∧
    ∀ msg, module_to_compiled module wgsize ≠ Outcome.err msg := by
  constructor
  · simp [module_to_compiled, naga_validate, hval]
  · intro msg
    simp [module_to_compiled, naga_validate, hval]

/-- C10 witness: the theorem applied to a concrete module that fails
validation. -/
theorem C10_module_to_compiled_witness :
    ({ validates := false, wgslWrites := true, sourceText := "" } : NagaModule).validates = false ∧
    (module_to_compiled { validates := false, wgslWrites := true, sourceText := "" } (1, 1, 1)
        = Outcome.fatal ∧
     ∀ msg, module_to_compiled { validates := false, wgslWrites := true, sourceText := "" } (1, 1, 1)
        ≠ Outcome.err msg) :=
  ⟨rfl, C10_module_to_compiled { validates := false, wgslWrites := true, sourceText := "" } (1, 1, 1) rfl⟩
